import Mathlib

/-!
Shallow embedding of the `rag_qa_production` health/readiness and logging
subsystem (files `app/utils/logger.py` and `app/api/routes/health.py`),
together with proofs about the claims of the specification.

Conventions of the embedding:
* Python machine state touched by the code (the root logger's level and
  handler list, the per-name logger registry of the `logging` module, the
  `lru_cache` of `get_logger`) is passed explicitly.
* Python exceptions are modelled with `Except`; the textual payload of an
  exception value is its `str(e)`.
* Log emission is modelled at the call site: every `logger.<level>(msg)`
  call appends a `LogLine` to the returned list, independent of the
  configured threshold (filtering is the sink's concern, not the caller's).
-/

namespace RagQa

/-! ## Model of the parts of the Python `logging` module used by `logger.py` -/

/-- A value of an attribute of the Python `logging` module: one of the
integer level constants, a string constant, or an object that is neither an
integer nor a string (the style-registry dict `_STYLES`). -/
inductive PyAttr where
  | level (n : Nat)
  | str (s : String)
  | dict
deriving DecidableEq, Repr

/-- `getattr(logging, name)` restricted to the attributes of the `logging`
module whose names contain no lowercase character — the only ones reachable
as `s.upper()` for some input `s`: the eight integer level constants, the
string `BASIC_FORMAT`, and the style-registry dict `_STYLES`.
Returns `none` when the module has no such attribute. -/
def loggingModuleAttr : String → Option PyAttr
  | "CRITICAL" => some (.level 50)
  | "FATAL" => some (.level 50)
  | "ERROR" => some (.level 40)
  | "WARNING" => some (.level 30)
  | "WARN" => some (.level 30)
  | "INFO" => some (.level 20)
  | "DEBUG" => some (.level 10)
  | "NOTSET" => some (.level 0)
  | "BASIC_FORMAT" => some (.str "%(levelname)s:%(name)s:%(message)s")
  | "_STYLES" => some .dict
  | _ => none

/-- The `logging._nameToLevel` table used by `Logger.setLevel` when it is
handed a string instead of an integer. -/
def nameToLevel : String → Option Nat
  | "CRITICAL" => some 50
  | "FATAL" => some 50
  | "ERROR" => some 40
  | "WARNING" => some 30
  | "WARN" => some 30
  | "INFO" => some 20
  | "DEBUG" => some 10
  | "NOTSET" => some 0
  | _ => none

/-- `logging._checkLevel`: an integer passes through; a string must name a
level, otherwise `setLevel` raises `ValueError`; anything else makes it
raise `TypeError` (both modelled as `.error` carrying the message). -/
def checkLevel : PyAttr → Except String Nat
  | .level n => .ok n
  | .str s =>
    match nameToLevel s with
    | some n => .ok n
    | none => .error ("Unknown level: " ++ s)
  | .dict => .error "Level not an integer or a valid string"

/-- Python `str.upper()` for the ASCII configuration strings considered here. -/
def pyUpper (s : String) : String :=
  String.mk (s.data.map Char.toUpper)

/-- A handler attached to the root logger: an identity (Python object
identity) plus the format string installed by `setFormatter`, if any. -/
structure Handler where
  hid : Nat
  fmt : Option String
deriving DecidableEq, Repr

/-- The process-wide state that `setup_logging` reads and writes: the root
logger's level and handler list, a counter for fresh handler identities, and
the levels of the five silenced third-party library loggers. -/
structure PyLoggingState where
  rootLevel : Nat
  rootHandlers : List Handler
  nextHandlerId : Nat
  httpxLevel : Nat
  httpcoreLevel : Nat
  openaiLevel : Nat
  qdrantClientLevel : Nat
  urllib3Level : Nat
deriving DecidableEq, Repr

/-- The format string passed to `logging.Formatter` in `setup_logging`. -/
def logFormat : String := "%(asctime)s - %(name)s - %(levelname)s - %(message)s"

/-- One step of the Python statement
`for handler in root_logger.handlers: root_logger.removeHandler(handler)`.
Python's `for` iterates with a running index over the *live* list while
`removeHandler` mutates that same list, so the loop reads the element at
index `i` of the current list and removes its first occurrence.  `fuel`
bounds the recursion; it is initialised to the length of the list, which is
an upper bound on the number of iterations because each executed iteration
shortens the list by one and increments the index. -/
def pyRemoveLoop : Nat → Nat → List Handler → List Handler
  | 0, _, l => l
  | fuel + 1, i, l =>
    if h : i < l.length then
      pyRemoveLoop fuel (i + 1) (l.erase (l.get ⟨i, h⟩))
    else l

/-- The whole removal loop of `setup_logging`, started at index 0. -/
def pyRemoveAll (l : List Handler) : List Handler :=
  pyRemoveLoop l.length 0 l

/-- `setup_logging` from `app/utils/logger.py`.  Builds the formatter, sets
the root level to `getattr(logging, log_level.upper(), logging.INFO)`, runs
the (index-based) handler-removal loop, attaches one fresh stream handler
carrying the formatter, and raises the five third-party loggers to WARNING.
`.error` models an escaping `ValueError` from `setLevel`. -/
def setup_logging (log_level : String) (st : PyLoggingState) : Except String PyLoggingState := do
  let attrVal := (loggingModuleAttr (pyUpper log_level)).getD (.level 20)
  let lvl ← checkLevel attrVal
  let cleared := pyRemoveAll st.rootHandlers
  pure { rootLevel := lvl
         rootHandlers := cleared ++ [⟨st.nextHandlerId, some logFormat⟩]
         nextHandlerId := st.nextHandlerId + 1
         httpxLevel := 30
         httpcoreLevel := 30
         openaiLevel := 30
         qdrantClientLevel := 30
         urllib3Level := 30 }

/-- `setup_log`, the backwards-compatible alias that delegates to
`setup_logging`. -/
def setup_log (log_level : String) (st : PyLoggingState) : Except String PyLoggingState :=
  setup_logging log_level st

/-! ## Model of `get_logger` (`@lru_cache` over `logging.getLogger`)

Logger objects are identified by the order of their creation inside the
`logging` module's manager: `dictLookup` on `loggerDict` finds the identity
of an already-created logger, and two equal identities mean the very same
Python object. -/

/-- First-match association-list lookup (Python dict lookup; keys in
`loggerDict` and in the `lru_cache` are unique, so first match is the
match). -/
def dictLookup : List (String × Nat) → String → Option Nat
  | [], _ => none
  | (k, v) :: rest, n => if k = n then some v else dictLookup rest n

/-- The `logging.Manager` registry behind `logging.getLogger`: a dictionary
from logger name to logger identity, plus a counter for fresh identities. -/
structure LoggingManager where
  loggerDict : List (String × Nat)
  nextId : Nat
deriving DecidableEq, Repr

/-- `logging.getLogger(name)`: return the registered logger for `name`, or
create and register a fresh one.  The registry only ever grows; a name is
never rebound. -/
def LoggingManager.pyGetLogger (m : LoggingManager) (name : String) : Nat × LoggingManager :=
  match dictLookup m.loggerDict name with
  | some v => (v, m)
  | none => (m.nextId, ⟨m.loggerDict ++ [(name, m.nextId)], m.nextId + 1⟩)

/-- The default capacity of a bare `@lru_cache` decorator. -/
def lruCapacity : Nat := 128

/-- Process state seen by `get_logger`: the memoization cache of the
`@lru_cache` decorator (most recently used first) and the `logging`
module's manager registry. -/
structure ProcState where
  lruCache : List (String × Nat)
  manager : LoggingManager
deriving DecidableEq, Repr

/-- The state at process start: empty cache, empty registry. -/
def initProcState : ProcState := ⟨[], ⟨[], 0⟩⟩

/-- `get_logger` from `app/utils/logger.py`: `@lru_cache`-memoized
`logging.getLogger(name)`.  On a cache hit the entry moves to the front
(most recently used); on a miss the wrapped function runs, the result is
inserted, and the least recently used entry is evicted beyond capacity. -/
def get_logger (name : String) (s : ProcState) : Nat × ProcState :=
  match dictLookup s.lruCache name with
  | some v =>
    (v, ⟨(name, v) :: s.lruCache.filter (fun p => !(p.1 == name)), s.manager⟩)
  | none =>
    let r := s.manager.pyGetLogger name
    (r.1, ⟨((name, r.1) :: s.lruCache).take lruCapacity, r.2⟩)

/-- A sequence of `get_logger` calls, returning the handle of each call in
order together with the final process state. -/
def runGetLoggers : List String → ProcState → List Nat × ProcState
  | [], s => ([], s)
  | n :: ns, s =>
    let r := get_logger n s
    let rest := runGetLoggers ns r.2
    (r.1 :: rest.1, rest.2)

/-! ## Model of the health endpoints (`app/api/routes/health.py`) -/

/-- Severity of an emitted log record. -/
inductive LogLevel where
  | debug
  | info
  | warning
  | error
  | critical
deriving DecidableEq, Repr

/-- One log record as emitted by a `logger.<level>(msg)` call. -/
structure LogLine where
  level : LogLevel
  msg : String
deriving DecidableEq, Repr

/-- The ERROR-severity records among the emitted log lines. -/
def errorLines (ls : List LogLine) : List LogLine :=
  ls.filter (fun l => l.level == LogLevel.error)

/-- Modelled from the spec: `CollectionInfo`, the opaque structured snapshot
returned by the dependency probe (`app/api/schemas.py` and
`app/core/vector_store.py` are not in the sources; the spec's end-to-end
scenario uses a name and a vector count, forwarded unchanged). -/
structure CollectionInfo where
  name : String
  count : Nat
deriving DecidableEq, Repr

/-- Modelled from the spec: the `ReadinessResponse` schema
(`app/api/schemas.py` is not in the sources): a status label,
`qdrant_connected`, and the optional collection info, present only when
ready. -/
structure ReadinessResponse where
  status : String
  qdrant_connected : Bool
  collection_info : Option CollectionInfo
deriving DecidableEq, Repr

/-- Modelled from the spec: the `HealthResponse` schema
(`app/api/schemas.py` is not in the sources): status label, capture
timestamp and version string.  Timestamps are instants on a linear clock,
modelled as integers. -/
structure HealthResponse where
  status : String
  timestamp : Int
  version : String
deriving DecidableEq, Repr

/-- Modelled from the spec: the process build version `__version__`
(`app/__init__.py` is not in the sources); a static string, immutable for
the process lifetime.  Its concrete value is irrelevant to every claim. -/
def appVersion : String := "0.1.0"

/-- The wall clock at the instant a request is handled: `nowLocal` is what
Python's naive `datetime.now()` returns (local time), `nowUtc` the same
instant expressed in UTC.  The two differ by the process's UTC offset. -/
structure Clock where
  nowLocal : Int
  nowUtc : Int
deriving DecidableEq, Repr

deriving instance DecidableEq for Except

/-- The externally observable behaviour of one `VectorStoreService` probe,
recorded as an oracle: what the constructor does (raises with message `m`,
or succeeds), what `health_check()` returns or raises, and what
`get_collection_info()` returns or raises.  Exceptions carry their
`str(e)`. -/
structure ProbeBehavior where
  ctorExc : Option String
  healthCheckResult : Except String Bool
  collectionInfoResult : Except String CollectionInfo
deriving DecidableEq, Repr

/-- The probe operations the readiness endpoint can invoke, recorded in
invocation order. -/
inductive ProbeCall where
  | construct
  | healthCheck
  | getCollectionInfo
deriving DecidableEq, Repr

/-- A Python exception as it propagates inside `readiness_check`'s `try`
block: either a `fastapi.HTTPException` (status code and detail) or any
other exception (its `str(e)`). -/
inductive PyError where
  | http (status_code : Nat) (detail : String)
  | exc (msg : String)
deriving DecidableEq, Repr

/-- The outcome of the readiness endpoint: a 200 response carrying a
`ReadinessResponse`, or an `HTTPException` escaping the handler, which the
framework renders as status `status_code` with body `{"detail": detail}`. -/
inductive ReadinessResult where
  | ok (r : ReadinessResponse)
  | httpError (status_code : Nat) (detail : String)
deriving DecidableEq, Repr

/-- The body of `readiness_check`'s `try` block (`health.py` lines 41-56):
construct the service, call `health_check()`, raise the 503
`HTTPException` when it returns false, otherwise call
`get_collection_info()` and build the ready response.  Returns the value
or the escaping exception, together with the probe calls that were
actually invoked. -/
def readinessTryBody (p : ProbeBehavior) :
    Except PyError ReadinessResponse × List ProbeCall :=
  match p.ctorExc with
  | some m => (.error (.exc m), [.construct])
  | none =>
    match p.healthCheckResult with
    | .error m => (.error (.exc m), [.construct, .healthCheck])
    | .ok isHealthy =>
      if !isHealthy then
        (.error (.http 503 "Vector store is not healthy"), [.construct, .healthCheck])
      else
        match p.collectionInfoResult with
        | .error m =>
          (.error (.exc m), [.construct, .healthCheck, .getCollectionInfo])
        | .ok ci =>
          (.ok ⟨"ready", true, some ci⟩, [.construct, .healthCheck, .getCollectionInfo])

/-- The two `except` clauses of `readiness_check` (`health.py` lines
57-64): an `HTTPException` is re-raised unchanged (`except HTTPException:
raise`); any other exception is logged at ERROR and wrapped into a fresh
503 `HTTPException` with detail `"Service not ready: " + str(e)`. -/
def handleReadinessError : PyError → ReadinessResult × List LogLine
  | .http c d => (.httpError c d, [])
  | .exc m =>
    (.httpError 503 ("Service not ready: " ++ m),
     [⟨.error, "Readiness check failed: " ++ m⟩])

/-- `readiness_check` from `app/api/routes/health.py`: the DEBUG entry log,
the `try` body, and the `except` clauses, returning the endpoint outcome,
the emitted log lines in order, and the probe calls that were invoked. -/
def readiness_check (p : ProbeBehavior) :
    ReadinessResult × List LogLine × List ProbeCall :=
  let dbg : LogLine := ⟨.debug, "Readiness check requested"⟩
  let body := readinessTryBody p
  match body.1 with
  | .ok r => (.ok r, [dbg], body.2)
  | .error e =>
    let handled := handleReadinessError e
    (handled.1, dbg :: handled.2, body.2)

/-- Modelled from the spec: the `dependency_connected` field of the JSON
body the client receives.  A 200 response carries the
`ReadinessResponse`'s `qdrant_connected`; an `HTTPException` is rendered
by the framework as `{"detail": ...}`, a body with no such field
(spec section 6: 503 responses carry a status-equivalent and a detail
string). -/
def bodyDependencyConnected : ReadinessResult → Option Bool
  | .ok r => some r.qdrant_connected
  | .httpError _ _ => none

/-- Modelled from the spec: the collection info carried by the JSON body
the client receives; `none` when the body has no such field. -/
def bodyCollectionInfo : ReadinessResult → Option CollectionInfo
  | .ok r => r.collection_info
  | .httpError _ _ => none

/-- `health_check` from `app/api/routes/health.py` (the liveness endpoint):
one INFO log, then a `HealthResponse` with the fixed status literal, the
naive local capture time `datetime.now()`, and the static version.  It
takes the probe oracle only to state that it never invokes it: the
returned probe-call list is empty and the output ignores `p` entirely. -/
def health_check (_p : ProbeBehavior) (c : Clock) :
    HealthResponse × List LogLine × List ProbeCall :=
  (⟨"healthy", c.nowLocal, appVersion⟩, [⟨.info, "Health check requested"⟩], [])

/-! ## Claims about the readiness and liveness endpoints -/

/-- C1: when the probe constructs, `health_check()` returns `true` and
`get_collection_info()` returns a value without raising, the readiness
endpoint returns the 200 response whose status is the literal `"ready"`,
whose `qdrant_connected` is `true`, and whose `collection_info` is exactly
the probe's value, forwarded unchanged. -/
theorem c1_readiness_success (p : ProbeBehavior) (ci : CollectionInfo)
    (h1 : p.ctorExc = none) (h2 : p.healthCheckResult = .ok true)
    (h3 : p.collectionInfoResult = .ok ci) :
    (readiness_check p).1 = .ok ⟨"ready", true, some ci⟩ := by
  rcases p with ⟨pc, ph, pci⟩
  dsimp only at h1 h2 h3
  subst h1 h2 h3
  rfl

/-- Witness for C1 at the spec's end-to-end scenario 1: snapshot
`{name := "docs", count := 100}` is forwarded unchanged in the ready
response. -/
theorem c1_witness :
    (readiness_check ⟨none, .ok true, .ok ⟨"docs", 100⟩⟩).1 =
      .ok ⟨"ready", true, some ⟨"docs", 100⟩⟩ :=
  c1_readiness_success ⟨none, .ok true, .ok ⟨"docs", 100⟩⟩ ⟨"docs", 100⟩ rfl rfl rfl

/-- C2 counterexample: with a probe whose `health_check()` returns `false`
(and whose snapshot would have succeeded), the endpoint does terminate with
the 503 `HTTPException`, but that response's body is the detail-only
`{"detail": ...}` object: it has no `dependency_connected` field at all, so
the claim that the body *sets* `dependency_connected = false` is false. -/
theorem c2_counterexample :
    (readiness_check ⟨none, .ok false, .ok ⟨"docs", 100⟩⟩).1 =
      .httpError 503 "Vector store is not healthy" ∧
    ¬ (bodyDependencyConnected
        (readiness_check ⟨none, .ok false, .ok ⟨"docs", 100⟩⟩).1 = some false) := by
  decide

/-- C2 (amended): when `health_check()` returns `false`, the readiness
endpoint terminates with the 503 `HTTPException` whose detail is
`"Vector store is not healthy"`; the rendered body carries no
`dependency_connected` field and no collection info, and
`get_collection_info()` is never invoked. -/
theorem c2_unhealthy_detail_only (p : ProbeBehavior)
    (h1 : p.ctorExc = none) (h2 : p.healthCheckResult = .ok false) :
    (readiness_check p).1 = .httpError 503 "Vector store is not healthy" ∧
    bodyDependencyConnected (readiness_check p).1 = none ∧
    bodyCollectionInfo (readiness_check p).1 = none ∧
    ProbeCall.getCollectionInfo ∉ (readiness_check p).2.2 := by
  rcases p with ⟨pc, ph, pci⟩
  dsimp only at h1 h2
  subst h1 h2
  refine ⟨rfl, rfl, rfl, ?_⟩
  show ProbeCall.getCollectionInfo ∉ [ProbeCall.construct, ProbeCall.healthCheck]
  decide

/-- Witness for C2 (amended) at a concrete unhealthy probe. -/
theorem c2_witness :
    (readiness_check ⟨none, .ok false, .ok ⟨"docs", 100⟩⟩).1 =
      .httpError 503 "Vector store is not healthy" ∧
    bodyDependencyConnected
      (readiness_check ⟨none, .ok false, .ok ⟨"docs", 100⟩⟩).1 = none ∧
    bodyCollectionInfo
      (readiness_check ⟨none, .ok false, .ok ⟨"docs", 100⟩⟩).1 = none ∧
    ProbeCall.getCollectionInfo ∉
      (readiness_check ⟨none, .ok false, .ok ⟨"docs", 100⟩⟩).2.2 :=
  c2_unhealthy_detail_only ⟨none, .ok false, .ok ⟨"docs", 100⟩⟩ rfl rfl

/-- C3: when the probe constructs and either `health_check()` itself raises
with message `m`, or `health_check()` returns `true` and
`get_collection_info()` raises with message `m`, the readiness endpoint
terminates with a 503 whose detail is `"Service not ready: "` followed by
the stringified cause, and the emitted ERROR-severity log lines are exactly
the one line `"Readiness check failed: " ++ m`, which contains the cause
text as a suffix. -/
theorem c3_exception_wrapped (p : ProbeBehavior) (m : String)
    (h1 : p.ctorExc = none)
    (h2 : p.healthCheckResult = .error m ∨
          (p.healthCheckResult = .ok true ∧ p.collectionInfoResult = .error m)) :
    (readiness_check p).1 = .httpError 503 ("Service not ready: " ++ m) ∧
    errorLines (readiness_check p).2.1 =
      [⟨.error, "Readiness check failed: " ++ m⟩] := by
  rcases p with ⟨pc, ph, pci⟩
  dsimp only at h1
  subst h1
  rcases h2 with h2 | ⟨h2, h3⟩
  · dsimp only at h2
    subst h2
    exact ⟨rfl, rfl⟩
  · dsimp only at h2 h3
    subst h2 h3
    exact ⟨rfl, rfl⟩

/-- Witness for C3 at the spec's end-to-end scenario 3: the snapshot raises
`ConnectionReset` after a healthy boolean probe. -/
theorem c3_witness :
    (readiness_check ⟨none, .ok true, .error "ConnectionReset"⟩).1 =
      .httpError 503 ("Service not ready: " ++ "ConnectionReset") ∧
    errorLines (readiness_check ⟨none, .ok true, .error "ConnectionReset"⟩).2.1 =
      [⟨.error, "Readiness check failed: " ++ "ConnectionReset"⟩] :=
  c3_exception_wrapped ⟨none, .ok true, .error "ConnectionReset"⟩ "ConnectionReset"
    rfl (Or.inr ⟨rfl, rfl⟩)

/-- C4: the catch-all of `readiness_check` re-raises an `HTTPException`
unchanged — same status code, same detail, no ERROR log — instead of
re-wrapping it into the generic `"Service not ready: ..."` form or
swallowing it.  In particular the 503 raised when the boolean probe
returned `false` passes through untouched. -/
theorem c4_http_passthrough (c : Nat) (d : String) :
    handleReadinessError (.http c d) = (.httpError c d, []) := rfl

/-- Witness for C4 at the concrete 503 raised on the unhealthy path. -/
theorem c4_witness :
    handleReadinessError (.http 503 "Vector store is not healthy") =
      (.httpError 503 "Vector store is not healthy", []) :=
  c4_http_passthrough 503 "Vector store is not healthy"

/-- C8 counterexample: the liveness endpoint stamps the response with the
naive local capture time (`datetime.now()`), so on a clock whose local time
differs from UTC (here a UTC+5:30 process at UTC instant 0) the timestamp
is not the capture time expressed in UTC. -/
theorem c8_counterexample :
    (health_check ⟨none, .ok true, .ok ⟨"docs", 100⟩⟩ ⟨330, 0⟩).1.timestamp ≠
      (⟨330, 0⟩ : Clock).nowUtc := by
  decide

/-- C8 (amended): for every probe oracle and clock, the liveness endpoint
never invokes the probe (empty probe-call trace), emits exactly one
INFO-severity log line, and returns status `"healthy"`, the static process
version, and the capture time of the check in the process's local timezone
(`datetime.now()`), not necessarily UTC. -/
theorem c8_liveness_local_time (p : ProbeBehavior) (c : Clock) :
    health_check p c =
      (⟨"healthy", c.nowLocal, appVersion⟩,
       [⟨.info, "Health check requested"⟩], []) := rfl

/-- Witness for C8 (amended) at a concrete probe and clock. -/
theorem c8_witness :
    health_check ⟨none, .ok true, .ok ⟨"docs", 100⟩⟩ ⟨330, 0⟩ =
      (⟨"healthy", 330, appVersion⟩, [⟨.info, "Health check requested"⟩], []) :=
  c8_liveness_local_time ⟨none, .ok true, .ok ⟨"docs", 100⟩⟩ ⟨330, 0⟩

/-- C9: the readiness endpoint never lets a raw exception escape: whatever
the probe does — including the constructor itself raising before
`health_check()` is ever invoked — the outcome is either a ready response
or an `HTTPException` with status 503. -/
theorem c9_always_classified (p : ProbeBehavior) :
    (∃ r, (readiness_check p).1 = .ok r) ∨
    (∃ d, (readiness_check p).1 = .httpError 503 d) := by
  rcases p with ⟨pc, ph, pci⟩
  rcases pc with _ | m
  · rcases ph with m | b
    · exact Or.inr ⟨_, rfl⟩
    · rcases b with _ | _
      · exact Or.inr ⟨_, rfl⟩
      · rcases pci with m | ci
        · exact Or.inr ⟨_, rfl⟩
        · exact Or.inl ⟨_, rfl⟩
  · exact Or.inr ⟨_, rfl⟩

/-- Witness for C9 at a probe whose constructor itself raises. -/
theorem c9_witness :
    (∃ r, (readiness_check ⟨some "no route to host", .ok true, .ok ⟨"docs", 100⟩⟩).1 =
        .ok r) ∨
    (∃ d, (readiness_check ⟨some "no route to host", .ok true, .ok ⟨"docs", 100⟩⟩).1 =
        .httpError 503 d) :=
  c9_always_classified ⟨some "no route to host", .ok true, .ok ⟨"docs", 100⟩⟩

/-- C10: on the expected-unhealthy path — `health_check()` returns `false`
without raising — the readiness endpoint emits no ERROR-severity log line. -/
theorem c10_no_error_log_on_unhealthy (p : ProbeBehavior)
    (h1 : p.ctorExc = none) (h2 : p.healthCheckResult = .ok false) :
    errorLines (readiness_check p).2.1 = [] := by
  rcases p with ⟨pc, ph, pci⟩
  dsimp only at h1 h2
  subst h1 h2
  rfl

/-- Witness for C10 at a concrete unhealthy probe whose snapshot would have
raised: still no ERROR log line. -/
theorem c10_witness :
    errorLines (readiness_check ⟨none, .ok false, .error "down"⟩).2.1 = [] :=
  c10_no_error_log_on_unhealthy ⟨none, .ok false, .error "down"⟩ rfl rfl

/-! ## Claims about the logging configuration -/

/-- The recognized severity set exactly as the specification words it: the
five literal names.  Stated from the spec, for comparison with what the
code actually recognizes. -/
def specRecognizedLevels : List String :=
  ["DEBUG", "INFO", "WARNING", "ERROR", "CRITICAL"]

/-- A root-logger state before any handler was attached. -/
def freshLoggingState : PyLoggingState := ⟨0, [], 0, 0, 0, 0, 0, 0⟩

/-- C5 counterexample: four inputs outside the spec's recognized set
`{DEBUG, INFO, WARNING, ERROR, CRITICAL}` on which `setup_logging` does not
behave like `setup_logging "INFO"`.  The code uppercases its input and
feeds `getattr(logging, ..., logging.INFO)` to `setLevel`, so `"debug"`
sets the threshold to DEBUG (10) and `"warn"` to WARNING (30) instead of
INFO (20); and the two inputs whose uppercase names a non-level attribute
of the module do not fall back at all but make `setLevel` raise —
`"basic_format"` reaches the string `BASIC_FORMAT` (`ValueError`) and
`"_styles"` reaches the dict `_STYLES` (`TypeError`) — so `setup_logging`
is not even raise-free there. -/
theorem c5_counterexample :
    ("debug" ∉ specRecognizedLevels ∧
      setup_logging "debug" freshLoggingState ≠
        setup_logging "INFO" freshLoggingState) ∧
    ("warn" ∉ specRecognizedLevels ∧
      setup_logging "warn" freshLoggingState ≠
        setup_logging "INFO" freshLoggingState) ∧
    ("basic_format" ∉ specRecognizedLevels ∧
      setup_logging "basic_format" freshLoggingState =
        .error "Unknown level: %(levelname)s:%(name)s:%(message)s") ∧
    ("_styles" ∉ specRecognizedLevels ∧
      setup_logging "_styles" freshLoggingState =
        .error "Level not an integer or a valid string") := by
  decide

/-- C5 (amended): for every severity input whose uppercased form is not an
attribute of the `logging` module, `setup_logging` behaves identically to
`setup_logging "INFO"`: it returns normally (no error surfaces) and leaves
the global severity threshold at INFO (20).  The inputs excluded by the
hypothesis behave differently, as the counterexample exhibits: level names
are matched case-insensitively together with the module aliases WARN,
FATAL and NOTSET, and the two inputs reaching the non-level attributes
BASIC_FORMAT and `_STYLES` make `setLevel` raise instead of falling
back. -/
theorem c5_unknown_level_falls_back (s : String) (st : PyLoggingState)
    (h : loggingModuleAttr (pyUpper s) = none) :
    setup_logging s st = setup_logging "INFO" st ∧
    setup_logging s st =
      .ok { rootLevel := 20
            rootHandlers :=
              pyRemoveAll st.rootHandlers ++ [⟨st.nextHandlerId, some logFormat⟩]
            nextHandlerId := st.nextHandlerId + 1
            httpxLevel := 30
            httpcoreLevel := 30
            openaiLevel := 30
            qdrantClientLevel := 30
            urllib3Level := 30 } := by
  unfold setup_logging
  rw [h]
  exact ⟨rfl, rfl⟩

/-- Witness for C5 (amended) at the unrecognized input `"verbose"`. -/
theorem c5_witness :
    setup_logging "verbose" freshLoggingState =
      setup_logging "INFO" freshLoggingState ∧
    setup_logging "verbose" freshLoggingState =
      .ok { rootLevel := 20
            rootHandlers :=
              pyRemoveAll freshLoggingState.rootHandlers ++
                [⟨freshLoggingState.nextHandlerId, some logFormat⟩]
            nextHandlerId := freshLoggingState.nextHandlerId + 1
            httpxLevel := 30
            httpcoreLevel := 30
            openaiLevel := 30
            qdrantClientLevel := 30
            urllib3Level := 30 } :=
  c5_unknown_level_falls_back "verbose" freshLoggingState rfl

/-- A root logger to which two handlers (identities 100 and 101) are
already attached — for instance by `logging.basicConfig` or a library —
before `setup_logging` runs. -/
def twoHandlersState : PyLoggingState :=
  ⟨20, [⟨100, none⟩, ⟨101, none⟩], 102, 30, 30, 30, 30, 30⟩

/-- C6, evaluated at the failing input: starting from a root logger with
the two handlers 100 and 101 attached, `setup_logging` leaves TWO handlers
attached, not one.  The removal loop iterates over the very list it
mutates, so after removing handler 100 at index 0 the loop reads index 1
of the shortened list and terminates, never detaching handler 101; the
fresh handler 102 is then attached next to it. -/
theorem c6_second_handler_survives :
    setup_logging "INFO" twoHandlersState =
      .ok ⟨20, [⟨101, none⟩, ⟨102, some logFormat⟩], 103, 30, 30, 30, 30, 30⟩ ∧
    (setup_logging "INFO" twoHandlersState).toOption.map
        (fun st => st.rootHandlers.length) = some 2 := by
  decide

/-! Helper lemmas for the `get_logger` identity claim. -/

theorem dictLookup_mem {l : List (String × Nat)} {n : String} {v : Nat}
    (h : dictLookup l n = some v) : (n, v) ∈ l := by
  induction l with
  | nil => simp [dictLookup] at h
  | cons p rest ih =>
    rcases p with ⟨k, w⟩
    by_cases hk : k = n
    · subst hk
      simp [dictLookup] at h
      subst h
      exact List.mem_cons_self _ _
    · simp [dictLookup, hk] at h
      exact List.mem_cons_of_mem _ (ih h)

theorem dictLookup_append_some {l1 : List (String × Nat)} {n : String} {v : Nat}
    (h : dictLookup l1 n = some v) (l2 : List (String × Nat)) :
    dictLookup (l1 ++ l2) n = some v := by
  induction l1 with
  | nil => simp [dictLookup] at h
  | cons p rest ih =>
    rcases p with ⟨k, w⟩
    by_cases hk : k = n
    · subst hk
      simp [dictLookup] at h ⊢
      exact h
    · simp [dictLookup, hk] at h ⊢
      exact ih h

theorem dictLookup_append_none {l1 : List (String × Nat)} {n : String}
    (h : dictLookup l1 n = none) (l2 : List (String × Nat)) :
    dictLookup (l1 ++ l2) n = dictLookup l2 n := by
  induction l1 with
  | nil => rfl
  | cons p rest ih =>
    rcases p with ⟨k, w⟩
    by_cases hk : k = n
    · subst hk
      simp [dictLookup] at h
    · simp [dictLookup, hk] at h ⊢
      exact ih h

/-- After `logging.getLogger(n)`, the registry maps `n` to the returned
identity. -/
theorem pyGetLogger_lookup_self (m : LoggingManager) (n : String) :
    dictLookup (m.pyGetLogger n).2.loggerDict n = some (m.pyGetLogger n).1 := by
  unfold LoggingManager.pyGetLogger
  cases hl : dictLookup m.loggerDict n with
  | some v => simp [hl]
  | none =>
    simp only [hl]
    rw [dictLookup_append_none hl]
    simp [dictLookup]

/-- `logging.getLogger` never rebinds an existing registry entry. -/
theorem pyGetLogger_mono (m : LoggingManager) (n n' : String) (w : Nat)
    (h : dictLookup m.loggerDict n' = some w) :
    dictLookup ((m.pyGetLogger n).2.loggerDict) n' = some w := by
  unfold LoggingManager.pyGetLogger
  cases hl : dictLookup m.loggerDict n with
  | some v => simpa [hl]
  | none =>
    simp only [hl]
    exact dictLookup_append_some h _

/-- Every entry of the `lru_cache` agrees with the `logging` module's
registry about the identity bound to its name. -/
def CacheOk (s : ProcState) : Prop :=
  ∀ n v, (n, v) ∈ s.lruCache → dictLookup s.manager.loggerDict n = some v

/-- One `get_logger` call never rebinds an existing registry entry. -/
theorem get_logger_mono (s : ProcState) (n n' : String) (w : Nat)
    (h : dictLookup s.manager.loggerDict n' = some w) :
    dictLookup ((get_logger n s).2.manager.loggerDict) n' = some w := by
  unfold get_logger
  cases hc : dictLookup s.lruCache n with
  | some v => simpa [hc]
  | none =>
    simp only [hc]
    exact pyGetLogger_mono _ _ _ _ h

/-- One `get_logger` call preserves the cache/registry agreement. -/
theorem get_logger_cacheOk {s : ProcState} (h : CacheOk s) (n : String) :
    CacheOk (get_logger n s).2 := by
  unfold get_logger
  cases hc : dictLookup s.lruCache n with
  | some v =>
    simp only [hc]
    intro n' v' hmem
    rcases List.mem_cons.1 hmem with heq | hmem'
    · cases heq
      exact h _ _ (dictLookup_mem hc)
    · exact h _ _ (List.mem_of_mem_filter hmem')
  | none =>
    simp only [hc]
    intro n' v' hmem
    have hmem' := List.take_subset _ _ hmem
    rcases List.mem_cons.1 hmem' with heq | hold
    · cases heq
      exact pyGetLogger_lookup_self s.manager n
    · exact pyGetLogger_mono _ _ _ _ (h _ _ hold)

/-- After one `get_logger` call, the registry maps the requested name to
the returned handle. -/
theorem get_logger_lookup_self {s : ProcState} (h : CacheOk s) (n : String) :
    dictLookup (get_logger n s).2.manager.loggerDict n = some (get_logger n s).1 := by
  unfold get_logger
  cases hc : dictLookup s.lruCache n with
  | some v =>
    simp only [hc]
    exact h _ _ (dictLookup_mem hc)
  | none =>
    simp only [hc]
    exact pyGetLogger_lookup_self s.manager n

/-- A whole run of `get_logger` calls never rebinds a registry entry. -/
theorem runGetLoggers_mono (names : List String) (s : ProcState) (n : String)
    (w : Nat) (h : dictLookup s.manager.loggerDict n = some w) :
    dictLookup (runGetLoggers names s).2.manager.loggerDict n = some w := by
  induction names generalizing s with
  | nil => exact h
  | cons nm ns ih => exact ih (get_logger nm s).2 (get_logger_mono s nm n w h)

/-- The `k`-th result of a run of `get_logger` calls is exactly the handle
the registry finally binds to the `k`-th requested name. -/
theorem runGetLoggers_result_lookup (names : List String) (s : ProcState)
    (h : CacheOk s) (k : Nat) (n : String) (hk : names.get? k = some n) :
    ∃ v, (runGetLoggers names s).1.get? k = some v ∧
      dictLookup (runGetLoggers names s).2.manager.loggerDict n = some v := by
  induction names generalizing s k with
  | nil => simp at hk
  | cons nm ns ih =>
    cases k with
    | zero =>
      simp only [List.get?_cons_zero, Option.some.injEq] at hk
      subst hk
      refine ⟨(get_logger nm s).1, rfl, ?_⟩
      exact runGetLoggers_mono ns _ _ _ (get_logger_lookup_self h nm)
    | succ k =>
      simp only [List.get?_cons_succ] at hk
      exact ih (get_logger nm s).2 (get_logger_cacheOk h nm) k hk

/-- C7: for every sequence of `get_logger` requests made over the process
lifetime — of any length, so in particular also when more than the
`lru_cache` capacity of 128 distinct names intervene between them — two
requests for the same name return the identical logger handle: even after
a cache eviction the re-executed `logging.getLogger` consults the
module's own registry, which never rebinds a name. -/
theorem c7_get_logger_identity (names : List String) (i j : Nat) (x : String)
    (hi : names.get? i = some x) (hj : names.get? j = some x) :
    (runGetLoggers names initProcState).1.get? i =
      (runGetLoggers names initProcState).1.get? j := by
  have h0 : CacheOk initProcState := by
    intro n v hv
    simp [initProcState] at hv
  obtain ⟨v, hv1, hv2⟩ := runGetLoggers_result_lookup names initProcState h0 i x hi
  obtain ⟨w, hw1, hw2⟩ := runGetLoggers_result_lookup names initProcState h0 j x hj
  rw [hv1, hw1]
  rw [hv2] at hw2
  exact hw2

/-- Witness for C7 on a concrete request sequence: the first and the third
call both ask for `"x"` and return the same handle. -/
theorem c7_witness :
    (["x", "y", "x"].get? 0 = some "x") ∧
    (["x", "y", "x"].get? 2 = some "x") ∧
    (runGetLoggers ["x", "y", "x"] initProcState).1.get? 0 =
      (runGetLoggers ["x", "y", "x"] initProcState).1.get? 2 :=
  ⟨rfl, rfl, c7_get_logger_identity ["x", "y", "x"] 0 2 "x" rfl rfl⟩

end RagQa
